import Mathlib

/-!
Shallow embedding of the pachyderm transform worker
(package `transform`, file modelled from `src/unnamed/part_001`).

The worker processes datum subtasks (cache probe, retry loop around user
code, stats accounting) and merge subtasks (chunk download, cache
eviction, sharded merge).  External effects (object store, caches, user
code) are modelled as explicit outcome flags passed in environment
records; machine integers are Int with explicit wrapping where the Go
source uses int64, and Nat with explicit mod where it uses uint64.
-/

/-- Wraps an unbounded integer into the int64 range, modelling Go int64
overflow on addition. -/
def wrapI64 (z : Int) : Int :=
  (z + 2 ^ 63) % 2 ^ 64 - 2 ^ 63

/-- Embeds `pps.ProcessStats`.  Durations (`*types.Duration` pointers in
the source) are modelled as `Option Int` nanosecond values, `none` being
the nil pointer; byte counts are uint64. -/
structure ProcessStats where
  downloadTime : Option Int
  processTime : Option Int
  uploadTime : Option Int
  downloadBytes : Nat
  uploadBytes : Nat
deriving Repr, DecidableEq

/-- Embeds the `DatumStats` message: per-datum process stats plus the
four outcome counters (int64) and the first failed datum id. -/
structure DatumStats where
  processStats : Option ProcessStats
  datumsProcessed : Int
  datumsSkipped : Int
  datumsFailed : Int
  datumsRecovered : Int
  failedDatumID : String
deriving Repr, DecidableEq

/-- The zero value `&DatumStats{}` allocated at the top of `processDatum`. -/
def zeroDatumStats : DatumStats :=
  { processStats := none, datumsProcessed := 0, datumsSkipped := 0,
    datumsFailed := 0, datumsRecovered := 0, failedDatumID := "" }

/-- Embeds `plusDuration` from the source: nil durations are treated as
zero, the sum is rebuilt with `DurationProto`, hence always non-nil.
`DurationFromProto` is total on values produced by `DurationProto`, so
the error branch of the source cannot fire on such values and is not
modelled.  Addition of `time.Duration` values is int64 addition. -/
def plusDuration (x y : Option Int) : Option Int :=
  some (wrapI64 (x.getD 0 + y.getD 0))

/-- Embeds `mergeStats` (merge `y` into `x`): the `ProcessStats` block is
touched only when `y.ProcessStats` is non-nil; the counters and the
sticky `FailedDatumID` are updated unconditionally.  The result is
`none` exactly where the Go code would dereference a nil
`x.ProcessStats` (never reached by the worker, which initialises it). -/
def mergeStats (x y : DatumStats) : Option DatumStats :=
  match y.processStats with
  | none =>
    some { x with
      datumsProcessed := wrapI64 (x.datumsProcessed + y.datumsProcessed),
      datumsSkipped := wrapI64 (x.datumsSkipped + y.datumsSkipped),
      datumsFailed := wrapI64 (x.datumsFailed + y.datumsFailed),
      datumsRecovered := wrapI64 (x.datumsRecovered + y.datumsRecovered),
      failedDatumID :=
        if x.failedDatumID = "" then y.failedDatumID else x.failedDatumID }
  | some yps =>
    match x.processStats with
    | none => none
    | some xps =>
      some { x with
        processStats := some {
          downloadTime := plusDuration xps.downloadTime yps.downloadTime,
          processTime := plusDuration xps.processTime yps.processTime,
          uploadTime := plusDuration xps.uploadTime yps.uploadTime,
          downloadBytes := (xps.downloadBytes + yps.downloadBytes) % 2 ^ 64,
          uploadBytes := (xps.uploadBytes + yps.uploadBytes) % 2 ^ 64 },
        datumsProcessed := wrapI64 (x.datumsProcessed + y.datumsProcessed),
        datumsSkipped := wrapI64 (x.datumsSkipped + y.datumsSkipped),
        datumsFailed := wrapI64 (x.datumsFailed + y.datumsFailed),
        datumsRecovered := wrapI64 (x.datumsRecovered + y.datumsRecovered),
        failedDatumID :=
          if x.failedDatumID = "" then y.failedDatumID else x.failedDatumID }

/-- A minimal model of the `%s` directives of `fmt.Sprintf` as used by the
tag-naming functions: each `%s` consumes the next argument, every other
character is copied verbatim. -/
def sprintfS : List Char → List String → List Char
  | [], _ => []
  | '%' :: 's' :: fmt, a :: args => a.data ++ sprintfS fmt args
  | c :: fmt, args => c :: sprintfS fmt args

/-- String-level wrapper for `sprintfS`. -/
def sprintf (fmt : String) (args : List String) : String :=
  ⟨sprintfS fmt.data args⟩

/-- The fixed suffix appended to a datum tag to name its stats tree
(source variable `statsTagSuffix`). -/
def statsTagSuffix : String := "_stats"

/-- The stats-tree tag of a datum: the datum tag with `statsTagSuffix`
appended, as in `tag+statsTagSuffix` in the source. -/
def datumStatsTag (tag : String) : String :=
  tag ++ statsTagSuffix

/-- Embeds `jobRecoveredDatumsTag`.  The job prefix function
(`jobTagPrefix` in the repository, defined outside the provided sources)
is taken as a parameter `tagPfx`. -/
def jobRecoveredDatumsTag (tagPfx : String → String) (jobID subtaskID : String) : String :=
  sprintf ("%s-recovered-%s") [tagPfx jobID, subtaskID]

/-- Embeds `jobChunkStatsTag`. -/
def jobChunkStatsTag (tagPfx : String → String) (jobID subtaskID : String) : String :=
  sprintf ("%s-chunk-stats-%s") [tagPfx jobID, subtaskID]

/-- Embeds `jobChunkTag`. -/
def jobChunkTag (tagPfx : String → String) (jobID subtaskID : String) : String :=
  sprintf ("%s-chunk-%s") [tagPfx jobID, subtaskID]

/-- Embeds `uploadRecoveredDatums`.  The two effects that can fail are
the protobuf write of the `RecoveredDatums` message into the buffer and
the `PutObject` upload; each is modelled by its error outcome (`none`
meaning success).  The source returns `nil` when the write fails. -/
def uploadRecoveredDatums (writeErr : Option String) (putObjectErr : Option String) :
    Option String :=
  match writeErr with
  | some _ => none
  | none => putObjectErr

/-- Error outcomes of the effectful calls made by `processDatum` and the
publishing phase of `handleDatumTask`.  `recovered` embeds the sentinel
`errDatumRecovered`; `handlerFailed` the wrapped error of a failing
`RunUserErrorHandlingCode`; the rest name the failing operation. -/
inductive PErr where
  | download
  | userCode
  | handlerFailed
  | recovered
  | upload
  | cachePut
  | getTag
  | putObject
  | writeStats
deriving Repr, DecidableEq

/-- Models `err.Error()` for the modelled error values.  The string for
`recovered` is the message of `errDatumRecovered` in the source; the
others are abstract operation names. -/
def errMessage : PErr → String
  | .download => "download failed"
  | .userCode => "user code failed"
  | .handlerFailed => "RunUserErrorHandlingCode: handler failed"
  | .recovered => "the datum errored, and the error was handled successfully"
  | .upload => "upload failed"
  | .cachePut => "cache put failed"
  | .getTag => "get tag failed"
  | .putObject => "put object failed"
  | .writeStats => "write stats failed"

/-- Environment of one `processDatum` call: the datum tag and id (pure
functions of the inputs, computed by the external `common` package) and
the outcomes of every external effect the call performs.  Per-attempt
effects are indexed by the value of `failures` at the time of the
attempt (attempt number), as each failed attempt increments `failures`
exactly once. -/
structure DatumEnv where
  tag : String
  datumID : String
  inspectTagOk : Bool
  getTagOk : Bool
  probePutOk : Bool
  enableStats : Bool
  getStatsTagOk : Bool
  statsProbePutOk : Bool
  statsInitOk : Bool
  s3Out : Bool
  errCmd : Bool
  datumTries : Int
  downloadOk : Nat → Bool
  userCodeOk : Nat → Bool
  errHandlerOk : Nat → Bool
  uploadOutputOk : Nat → Bool
  loopCachePutOk : Nat → Bool
  putErrObjOk : Bool
  writeStatsOk : Bool
  withDataStats : Option ProcessStats

/-- Observable outcome of one invocation of the retried operation (the
closure passed to `backoff.RetryUntilCancel`): its error, whether
`RunUserCode` and `RunUserErrorHandlingCode` ran, and whether a datum
hashtree was put into `datumCache`. -/
structure AttemptOut where
  err : Option PErr
  ranUser : Bool
  ranHandler : Bool
  cachePut : Bool
deriving Repr, DecidableEq

/-- One invocation of the retried operation at attempt number `f` (the
current value of `failures`): download the inputs (`WithData`), run user
code, on user-code failure run the error handler exactly when an error
command is configured and `failures == DatumTries-1`, then (outside
S3Out pipelines) upload the output and cache the datum hashtree. -/
def attempt (env : DatumEnv) (f : Nat) : AttemptOut :=
  if !env.downloadOk f then ⟨some .download, false, false, false⟩
  else if !env.userCodeOk f then
    if env.errCmd ∧ (f : Int) = env.datumTries - 1 then
      if env.errHandlerOk f then ⟨some .recovered, true, true, false⟩
      else ⟨some .handlerFailed, true, true, false⟩
    else ⟨some .userCode, true, false, false⟩
  else if env.s3Out then ⟨none, true, false, false⟩
  else if !env.uploadOutputOk f then ⟨some .upload, true, false, false⟩
  else if !env.loopCachePutOk f then ⟨some .cachePut, true, false, false⟩
  else ⟨none, true, false, true⟩

/-- Aggregate observables of the whole retry loop: final error (`none`
when an invocation succeeded), number of `RunUserCode` and error-handler
runs, the content of the `failure` entry written into the stats tree by
the final abort (if any), and the number of `datumCache` puts. -/
structure LoopOut where
  err : Option PErr
  userRuns : Nat
  handlerRuns : Nat
  failureEntry : Option String
  cachePuts : Nat
deriving Repr, DecidableEq

/-- Embeds the `backoff.RetryUntilCancel` loop of `processDatum` with
the `ZeroBackOff` policy, starting at `failures = f`: run the operation;
on success stop; on error increment `failures` and, when
`failures >= DatumTries`, write a `failure` entry holding the error
message into the stats tree (when stats are enabled and the error object
upload succeeds) and abort with that error; otherwise retry. -/
def retryLoop (env : DatumEnv) (f : Nat) : LoopOut :=
  if (attempt env f).err = none then
    { err := none, userRuns := (attempt env f).ranUser.toNat,
      handlerRuns := (attempt env f).ranHandler.toNat,
      failureEntry := none, cachePuts := (attempt env f).cachePut.toNat }
  else if env.datumTries ≤ (f : Int) + 1 then
    { err := (attempt env f).err, userRuns := (attempt env f).ranUser.toNat,
      handlerRuns := (attempt env f).ranHandler.toNat,
      failureEntry :=
        if env.enableStats && env.putErrObjOk then
          some (errMessage ((attempt env f).err.getD PErr.userCode))
        else none,
      cachePuts := (attempt env f).cachePut.toNat }
  else
    { err := (retryLoop env (f + 1)).err,
      userRuns := (attempt env f).ranUser.toNat + (retryLoop env (f + 1)).userRuns,
      handlerRuns :=
        (attempt env f).ranHandler.toNat + (retryLoop env (f + 1)).handlerRuns,
      failureEntry := (retryLoop env (f + 1)).failureEntry,
      cachePuts := (attempt env f).cachePut.toNat + (retryLoop env (f + 1)).cachePuts }
termination_by (env.datumTries - f).toNat
decreasing_by omega

/-- Full observable result of `processDatum`: the returned sub-stats,
recovered tags and error, plus the loop observables and cache puts. -/
structure PDOut where
  stats : DatumStats
  recovered : List String
  err : Option PErr
  userRuns : Nat
  handlerRuns : Nat
  failureEntry : Option String
  datumCachePuts : Nat
  statsCachePuts : Nat
deriving Repr, DecidableEq

/-- Embeds `processDatum`.  Cache probe: when `InspectTag` succeeds, the
tagged tree is fetched into `datumCache`; with stats enabled a failing
fetch of the stats tag returns success early (before the
`DatumsSkipped++` statement of the source).  Otherwise the stats trees
are initialised (stats mode), the retry loop runs, its outcome is
classified into recovered / failed / processed, and the deferred
`writeStats` (stats mode) can replace a nil return error. -/
def processDatum (env : DatumEnv) : PDOut :=
  if env.inspectTagOk then
    if !env.getTagOk then
      { stats := zeroDatumStats, recovered := [], err := some .getTag, userRuns := 0,
        handlerRuns := 0, failureEntry := none, datumCachePuts := 0, statsCachePuts := 0 }
    else if !env.probePutOk then
      { stats := zeroDatumStats, recovered := [], err := some .cachePut, userRuns := 0,
        handlerRuns := 0, failureEntry := none, datumCachePuts := 0, statsCachePuts := 0 }
    else if env.enableStats then
      if !env.getStatsTagOk then
        { stats := zeroDatumStats, recovered := [], err := none, userRuns := 0,
          handlerRuns := 0, failureEntry := none, datumCachePuts := 1, statsCachePuts := 0 }
      else if !env.statsProbePutOk then
        { stats := zeroDatumStats, recovered := [], err := some .cachePut, userRuns := 0,
          handlerRuns := 0, failureEntry := none, datumCachePuts := 1, statsCachePuts := 0 }
      else
        { stats := { zeroDatumStats with datumsSkipped := 1 }, recovered := [],
          err := none, userRuns := 0, handlerRuns := 0, failureEntry := none,
          datumCachePuts := 1, statsCachePuts := 1 }
    else
      { stats := { zeroDatumStats with datumsSkipped := 1 }, recovered := [],
        err := none, userRuns := 0, handlerRuns := 0, failureEntry := none,
        datumCachePuts := 1, statsCachePuts := 0 }
  else if env.enableStats && !env.statsInitOk then
    { stats := zeroDatumStats, recovered := [], err := some .putObject, userRuns := 0,
      handlerRuns := 0, failureEntry := none, datumCachePuts := 0, statsCachePuts := 0 }
  else
    let r := retryLoop env 0
    let stats : DatumStats :=
      if r.err = some PErr.recovered then
        { zeroDatumStats with processStats := env.withDataStats, datumsRecovered := 1 }
      else if r.err ≠ none then
        { zeroDatumStats with
            processStats := env.withDataStats
            datumsFailed := 1
            failedDatumID := env.datumID }
      else
        { zeroDatumStats with processStats := env.withDataStats, datumsProcessed := 1 }
    { stats := stats,
      recovered := if r.err = some PErr.recovered then [env.tag] else [],
      err := if env.enableStats && !env.writeStatsOk then some .writeStats else none,
      userRuns := r.userRuns, handlerRuns := r.handlerRuns,
      failureEntry := r.failureEntry, datumCachePuts := r.cachePuts,
      statsCachePuts := if env.enableStats && env.writeStatsOk then 1 else 0 }

/-- The sum of the four outcome counters of a `DatumStats`. -/
def counterSum (s : DatumStats) : Int :=
  s.datumsProcessed + s.datumsSkipped + s.datumsFailed + s.datumsRecovered

/-- A `HashtreeInfo` message: the producing worker address and the tag. -/
structure HashtreeInfo where
  address : String
  tag : String
deriving Repr, DecidableEq

/-- The output fields of a `DatumData` payload mutated by
`handleDatumTask`. -/
structure TaskData where
  stats : DatumStats
  chunkHashtree : Option HashtreeInfo
  statsHashtree : Option HashtreeInfo
  recoveredDatumsTag : Option String
deriving Repr, DecidableEq

/-- Outcomes of the effectful calls of the publishing phase of
`handleDatumTask` (after the datum fan-out). -/
structure PublishEnv where
  s3Out : Bool
  enableStats : Bool
  uploadRecoveredOk : Bool
  getChunkCacheOk : Bool
  uploadChunkOk : Bool
  getStatsCacheOk : Bool
  uploadStatsChunkOk : Bool
deriving Repr, DecidableEq

/-- Embeds the publishing phase of `handleDatumTask` (the code after the
fan-out): when `DatumsFailed == 0` and the pipeline is not `S3Out`,
upload the recovered-datum list (if non-empty) and the merged output
chunk, setting `RecoveredDatumsTag` and `ChunkHashtree`; then, when
stats are enabled, upload the stats chunk and set `StatsHashtree`. -/
def publishPhase (env : PublishEnv) (tagPfx : String → String)
    (workerIP jobID subtaskID : String) (recovered : List String)
    (d0 : TaskData) : Except PErr TaskData :=
  let afterChunk : Except PErr TaskData :=
    if d0.stats.datumsFailed = 0 ∧ env.s3Out = false then
      let d1e : Except PErr TaskData :=
        if recovered.length > 0 then
          if env.uploadRecoveredOk then
            let t1 := jobRecoveredDatumsTag tagPfx jobID subtaskID
            .ok { d0 with recoveredDatumsTag := some t1 }
          else .error .putObject
        else .ok d0
      match d1e with
      | .error e => .error e
      | .ok d1 =>
        if !env.getChunkCacheOk then .error .cachePut
        else if !env.uploadChunkOk then .error .upload
        else
          let h1 : HashtreeInfo :=
            { address := workerIP, tag := jobChunkTag tagPfx jobID subtaskID }
          .ok { d1 with chunkHashtree := some h1 }
    else .ok d0
  match afterChunk with
  | .error e => .error e
  | .ok d2 =>
    if env.enableStats then
      if !env.getStatsCacheOk then .error .cachePut
      else if !env.uploadStatsChunkOk then .error .upload
      else
        let h2 : HashtreeInfo :=
          { address := workerIP, tag := jobChunkStatsTag tagPfx jobID subtaskID }
        .ok { d2 with statsHashtree := some h2 }
    else .ok d2

/-- The wire form of a subtask payload.  The dispatcher decides the
payload shape by attempted decode; serialization of the two payload
shapes is modelled from the spec as a lossless tagged encoding
(round-trip property of the spec), `other` being bytes that decode as
neither shape. -/
inductive Wire (δ μ : Type) where
  | datumWire (d : δ)
  | mergeWire (m : μ)
  | other
deriving Repr, DecidableEq

/-- Modelled from the spec: `deserializeDatumData`, absent from the
provided sources; decodes a payload as `DatumData` when it has that
shape. -/
def deserializeDatumData {δ μ : Type} : Wire δ μ → Option δ
  | .datumWire d => some d
  | _ => none

/-- Modelled from the spec: `deserializeMergeData`, absent from the
provided sources; decodes a payload as `MergeData` when it has that
shape. -/
def deserializeMergeData {δ μ : Type} : Wire δ μ → Option μ
  | .mergeWire m => some m
  | _ => none

/-- Errors of the subtask dispatcher: an error bubbled up from a handler
or serializer, or the unrecognized-task-format error of the source
(`worker task format unrecognized`). -/
inductive WorkerErr (E : Type) where
  | inner (e : E)
  | unrecognized
deriving Repr, DecidableEq

/-- Embeds `Worker`: attempt to decode the payload as `DatumData` and on
success run the datum handler and re-encode the mutated payload into the
subtask; otherwise attempt `MergeData` likewise; otherwise fail with the
unrecognized-task-format error.  Handlers and serializers are passed as
functions; the returned value is the new payload stored in
`subtask.Data`. -/
def Worker {δ μ E : Type} (handleD : δ → Except E δ)
    (serD : δ → Except E (Wire δ μ)) (handleM : μ → Except E μ)
    (serM : μ → Except E (Wire δ μ)) (taskData : Wire δ μ) :
    Except (WorkerErr E) (Wire δ μ) :=
  match deserializeDatumData taskData with
  | some d =>
    match handleD d with
    | .error e => .error (.inner e)
    | .ok d2 =>
      match serD d2 with
      | .error e => .error (.inner e)
      | .ok w => .ok w
  | none =>
    match deserializeMergeData taskData with
    | some m =>
      match handleM m with
      | .error e => .error (.inner e)
      | .ok m2 =>
        match serM m2 with
        | .error e => .error (.inner e)
        | .ok w => .ok w
    | none => .error .unrecognized

/-- Actions performed by the main goroutine of the download phase of
`handleMergeTask`, in program order: spawning a chunk fetch, deleting a
stale cache key, spawning the parent-tree fetch, and the final
`eg.Wait()` at which every spawned download has completed. -/
inductive MergeEvent where
  | spawnFetch (tag : String)
  | deleteKey (key : String)
  | spawnParentFetch
  | wait
deriving Repr, DecidableEq

/-- The fetches spawned by the download loop: one per referenced
hashtree whose tag the chunk cache does not already hold. -/
def fetchSpawns (cachedIDs tags : List String) : List MergeEvent :=
  (tags.filter (fun t => !cachedIDs.contains t)).map MergeEvent.spawnFetch

/-- The stale-entry eviction loop: delete every previously cached id not
referenced by the current merge request (`usedIDs` is the set of all
referenced tags). -/
def staleDeletes (cachedIDs tags : List String) : List MergeEvent :=
  (cachedIDs.filter (fun k => !tags.contains k)).map MergeEvent.deleteKey

/-- The main-goroutine action trace of the download phase of
`handleMergeTask` (source order): spawn the missing-chunk fetches, then
evict stale cache entries, then spawn the parent fetch (when a parent is
set), then wait for the spawned downloads. -/
def downloadPhaseTrace (cachedIDs tags : List String) (hasParent : Bool) :
    List MergeEvent :=
  fetchSpawns cachedIDs tags ++ staleDeletes cachedIDs tags ++
    (if hasParent then [MergeEvent.spawnParentFetch] else []) ++ [MergeEvent.wait]

/-- The claim that eviction happens strictly after all downloads
complete, stated over the concurrency model: a schedule assigns each
spawned fetch a completion position after its spawn and no later than
the wait point; the claim requires every such completion to precede
every delete. -/
def DeletesAfterDownloadsComplete (cachedIDs tags : List String)
    (hasParent : Bool) : Prop :=
  ∀ complete : Nat → Nat,
    (∀ i t, (downloadPhaseTrace cachedIDs tags hasParent)[i]? =
        some (MergeEvent.spawnFetch t) →
      i < complete i ∧
        complete i ≤ (downloadPhaseTrace cachedIDs tags hasParent).length - 1) →
    ∀ i t d k, (downloadPhaseTrace cachedIDs tags hasParent)[i]? =
        some (MergeEvent.spawnFetch t) →
      (downloadPhaseTrace cachedIDs tags hasParent)[d]? =
        some (MergeEvent.deleteKey k) →
      complete i < d

/-- A concrete environment exercising the cache-probe path with stats
enabled and a failing stats-tag fetch. -/
def c1Env : DatumEnv :=
  { tag := "tagA", datumID := "datumA", inspectTagOk := true, getTagOk := true,
    probePutOk := true, enableStats := true, getStatsTagOk := false,
    statsProbePutOk := true, statsInitOk := true, s3Out := false, errCmd := false,
    datumTries := 3, downloadOk := fun _ => true, userCodeOk := fun _ => true,
    errHandlerOk := fun _ => true, uploadOutputOk := fun _ => true,
    loopCachePutOk := fun _ => true, putErrObjOk := true, writeStatsOk := true,
    withDataStats := none }

/-- A concrete environment exercising the cache-probe path with stats
enabled and a failing stats-tag fetch (counter-sum instance). -/
def c2Env : DatumEnv :=
  { tag := "tagB", datumID := "datumB", inspectTagOk := true, getTagOk := true,
    probePutOk := true, enableStats := true, getStatsTagOk := false,
    statsProbePutOk := true, statsInitOk := true, s3Out := false, errCmd := false,
    datumTries := 3, downloadOk := fun _ => true, userCodeOk := fun _ => true,
    errHandlerOk := fun _ => true, uploadOutputOk := fun _ => true,
    loopCachePutOk := fun _ => true, putErrObjOk := true, writeStatsOk := true,
    withDataStats := none }

/-- A concrete environment in which user code always fails, an error
command is configured with two tries, and the error handler succeeds. -/
def c4EnvA : DatumEnv :=
  { tag := "tagC", datumID := "datumC", inspectTagOk := false, getTagOk := true,
    probePutOk := true, enableStats := true, getStatsTagOk := true,
    statsProbePutOk := true, statsInitOk := true, s3Out := false, errCmd := true,
    datumTries := 2, downloadOk := fun _ => true, userCodeOk := fun _ => false,
    errHandlerOk := fun _ => true, uploadOutputOk := fun _ => true,
    loopCachePutOk := fun _ => true, putErrObjOk := true, writeStatsOk := true,
    withDataStats := none }

/-- Like `c4EnvA` but the error handler fails. -/
def c4EnvB : DatumEnv :=
  { tag := "tagC", datumID := "datumC", inspectTagOk := false, getTagOk := true,
    probePutOk := true, enableStats := true, getStatsTagOk := true,
    statsProbePutOk := true, statsInitOk := true, s3Out := false, errCmd := true,
    datumTries := 2, downloadOk := fun _ => true, userCodeOk := fun _ => false,
    errHandlerOk := fun _ => false, uploadOutputOk := fun _ => true,
    loopCachePutOk := fun _ => true, putErrObjOk := true, writeStatsOk := true,
    withDataStats := none }

/-- A concrete environment in which the single allowed try fails with no
error handler configured: the datum exhausts its tries. -/
def c10Env : DatumEnv :=
  { tag := "tagD", datumID := "datumD", inspectTagOk := false, getTagOk := true,
    probePutOk := true, enableStats := false, getStatsTagOk := true,
    statsProbePutOk := true, statsInitOk := true, s3Out := false, errCmd := false,
    datumTries := 1, downloadOk := fun _ => true, userCodeOk := fun _ => false,
    errHandlerOk := fun _ => true, uploadOutputOk := fun _ => true,
    loopCachePutOk := fun _ => true, putErrObjOk := true, writeStatsOk := true,
    withDataStats := none }

/-- Concrete process stats of the stats-merge witness target. -/
def c6Xps : ProcessStats :=
  { downloadTime := some 5, processTime := none, uploadTime := some 3,
    downloadBytes := 10, uploadBytes := 2 }

/-- Concrete process stats of the stats-merge witness source. -/
def c6Yps : ProcessStats :=
  { downloadTime := some 7, processTime := some 4, uploadTime := none,
    downloadBytes := 6, uploadBytes := 2 }

/-- Concrete merge target for the stats-merge witness. -/
def c6X : DatumStats :=
  { processStats := some c6Xps, datumsProcessed := 1, datumsSkipped := 2,
    datumsFailed := 0, datumsRecovered := 0, failedDatumID := "" }

/-- Concrete merge source for the stats-merge witness. -/
def c6Y : DatumStats :=
  { processStats := some c6Yps, datumsProcessed := 3, datumsSkipped := 0,
    datumsFailed := 1, datumsRecovered := 0, failedDatumID := "dX" }

/-- Concrete publish environment for the chunk-publication witness. -/
def c3Env : PublishEnv :=
  { s3Out := false, enableStats := true, uploadRecoveredOk := true,
    getChunkCacheOk := true, uploadChunkOk := true, getStatsCacheOk := true,
    uploadStatsChunkOk := true }

/-- Concrete fan-out result for the chunk-publication witness. -/
def c3Data : TaskData :=
  { stats := { zeroDatumStats with datumsProcessed := 2, datumsSkipped := 1 },
    chunkHashtree := none, statsHashtree := none, recoveredDatumsTag := none }

/-- The expected publication result for `c3Env` and `c3Data` with the
identity job prefix, worker ip `ip`, job `job` and subtask `sub`. -/
def c3dC : TaskData :=
  { stats := c3Data.stats,
    chunkHashtree := some { address := "ip", tag := "job-chunk-sub" },
    statsHashtree := some { address := "ip", tag := "job-chunk-stats-sub" },
    recoveredDatumsTag := none }

/-- The tag functions concatenate the prefix, a fixed literal and the
subtask id;  proved from the `%s` substitution model of `Sprintf`. -/
theorem jobRecoveredDatumsTag_eq (tagPfx : String → String) (j s : String) :
    jobRecoveredDatumsTag tagPfx j s = tagPfx j ++ "-recovered-" ++ s := by
  apply String.ext
  simp [jobRecoveredDatumsTag, sprintf, sprintfS, String.data_append]

theorem jobChunkStatsTag_eq (tagPfx : String → String) (j s : String) :
    jobChunkStatsTag tagPfx j s = tagPfx j ++ "-chunk-stats-" ++ s := by
  apply String.ext
  simp [jobChunkStatsTag, sprintf, sprintfS, String.data_append]

theorem jobChunkTag_eq (tagPfx : String → String) (j s : String) :
    jobChunkTag tagPfx j s = tagPfx j ++ "-chunk-" ++ s := by
  apply String.ext
  simp [jobChunkTag, sprintf, sprintfS, String.data_append]

/-- C9: the tag-naming functions produce exactly the specified strings
for all job and subtask ids, all three built over the same job prefix
function, and the stats-tree tag of a datum is the datum tag with the
fixed suffix `_stats` appended. -/
theorem C9_theorem (tagPfx : String → String) (jobID subtaskID tag : String) :
    jobRecoveredDatumsTag tagPfx jobID subtaskID
        = tagPfx jobID ++ "-recovered-" ++ subtaskID ∧
    jobChunkStatsTag tagPfx jobID subtaskID
        = tagPfx jobID ++ "-chunk-stats-" ++ subtaskID ∧
    jobChunkTag tagPfx jobID subtaskID = tagPfx jobID ++ "-chunk-" ++ subtaskID ∧
    datumStatsTag tag = tag ++ "_stats" :=
  ⟨jobRecoveredDatumsTag_eq tagPfx jobID subtaskID,
   jobChunkStatsTag_eq tagPfx jobID subtaskID,
   jobChunkTag_eq tagPfx jobID subtaskID, rfl⟩

/-- C5: evaluation of `uploadRecoveredDatums` at a failing serialization:
the source returns nil when the protobuf write into the buffer fails
(first conjunct, the bug), while a `PutObject` failure is propagated
(third conjunct). -/
theorem C5_theorem :
    uploadRecoveredDatums (some ("proto write failed")) none = none ∧
    uploadRecoveredDatums none none = none ∧
    uploadRecoveredDatums none (some ("put failed")) = some ("put failed") :=
  ⟨rfl, rfl, rfl⟩

/-- C6: `mergeStats` adds the durations and byte counts of `y` into the
process stats of `x` (int64 and uint64 arithmetic respectively, nil
durations read as zero), adds the four outcome counters, and overwrites
`FailedDatumID` only when it is still empty. -/
theorem C6_theorem (x y : DatumStats) (xps : ProcessStats)
    (h : x.processStats = some xps) :
    (mergeStats x y).isSome = true ∧
    ∀ z, mergeStats x y = some z →
      z.datumsProcessed = wrapI64 (x.datumsProcessed + y.datumsProcessed) ∧
      z.datumsSkipped = wrapI64 (x.datumsSkipped + y.datumsSkipped) ∧
      z.datumsFailed = wrapI64 (x.datumsFailed + y.datumsFailed) ∧
      z.datumsRecovered = wrapI64 (x.datumsRecovered + y.datumsRecovered) ∧
      z.failedDatumID
          = (if x.failedDatumID = "" then y.failedDatumID else x.failedDatumID) ∧
      (∀ yps, y.processStats = some yps →
        z.processStats = some
          { downloadTime := some (wrapI64 (xps.downloadTime.getD 0 + yps.downloadTime.getD 0))
            processTime := some (wrapI64 (xps.processTime.getD 0 + yps.processTime.getD 0))
            uploadTime := some (wrapI64 (xps.uploadTime.getD 0 + yps.uploadTime.getD 0))
            downloadBytes := (xps.downloadBytes + yps.downloadBytes) % 2 ^ 64
            uploadBytes := (xps.uploadBytes + yps.uploadBytes) % 2 ^ 64 }) ∧
      (y.processStats = none → z.processStats = some xps) := by
  cases hy : y.processStats with
  | none =>
    constructor
    · simp [mergeStats, hy]
    · intro z hz
      simp only [mergeStats, hy] at hz
      injection hz with hz
      subst hz
      refine ⟨rfl, rfl, rfl, rfl, rfl, ?_, fun _ => h⟩
      intro yps hyps
      simp [hy] at hyps
  | some yps =>
    constructor
    · simp [mergeStats, hy, h]
    · intro z hz
      simp only [mergeStats, hy, h] at hz
      injection hz with hz
      subst hz
      refine ⟨rfl, rfl, rfl, rfl, rfl, ?_, ?_⟩
      · intro yps2 hyps
        injection hyps with hyps
        subst hyps
        simp [plusDuration]
      · intro hnone
        simp at hnone

/-- C6 witness: merging two concrete stats records adds counters,
durations and byte counts and adopts the first failed datum id. -/
theorem C6_witness :
    (mergeStats c6X c6Y).isSome = true ∧
    ((mergeStats c6X c6Y).getD zeroDatumStats).datumsProcessed = 4 ∧
    ((mergeStats c6X c6Y).getD zeroDatumStats).failedDatumID = "dX" ∧
    ((mergeStats c6X c6Y).getD zeroDatumStats).processStats
        = some { downloadTime := some 12
                 processTime := some 4
                 uploadTime := some 3
                 downloadBytes := 16
                 uploadBytes := 4 } := by
  obtain ⟨hs, hall⟩ := C6_theorem c6X c6Y c6Xps rfl
  cases hm : mergeStats c6X c6Y with
  | none => rw [hm] at hs; cases hs
  | some z =>
    obtain ⟨p1, p2, p3, p4, p5, p6, p7⟩ := hall z hm
    refine ⟨rfl, ?_, ?_, ?_⟩
    · show z.datumsProcessed = 4
      rw [p1]; decide
    · show z.failedDatumID = "dX"
      rw [p5]; decide
    · show z.processStats = _
      rw [p6 c6Yps rfl]; decide

/-- C7: the dispatcher routes a payload decoding as `DatumData` to the
datum handler, otherwise a payload decoding as `MergeData` to the merge
handler, fails with the unrecognized-format error when both decodes
fail, and on handler success stores the re-encoded mutated payload. -/
theorem C7_theorem {δ μ E : Type} (handleD : δ → Except E δ)
    (serD : δ → Except E (Wire δ μ)) (handleM : μ → Except E μ)
    (serM : μ → Except E (Wire δ μ)) (w : Wire δ μ) :
    (∀ d, deserializeDatumData w = some d →
      (∀ e, handleD d = .error e →
        Worker handleD serD handleM serM w = .error (.inner e)) ∧
      (∀ d2 e, handleD d = .ok d2 → serD d2 = .error e →
        Worker handleD serD handleM serM w = .error (.inner e)) ∧
      (∀ d2 w2, handleD d = .ok d2 → serD d2 = .ok w2 →
        Worker handleD serD handleM serM w = .ok w2)) ∧
    (deserializeDatumData w = none → ∀ m, deserializeMergeData w = some m →
      (∀ e, handleM m = .error e →
        Worker handleD serD handleM serM w = .error (.inner e)) ∧
      (∀ m2 e, handleM m = .ok m2 → serM m2 = .error e →
        Worker handleD serD handleM serM w = .error (.inner e)) ∧
      (∀ m2 w2, handleM m = .ok m2 → serM m2 = .ok w2 →
        Worker handleD serD handleM serM w = .ok w2)) ∧
    (deserializeDatumData w = none → deserializeMergeData w = none →
      Worker handleD serD handleM serM w = .error .unrecognized) := by
  cases w with
  | datumWire d =>
    refine ⟨?_, by simp [deserializeDatumData], by simp [deserializeDatumData]⟩
    intro d0 hd0
    simp [deserializeDatumData] at hd0
    subst hd0
    refine ⟨?_, ?_, ?_⟩
    · intro e he; simp [Worker, deserializeDatumData, he]
    · intro d2 e h1 h2; simp [Worker, deserializeDatumData, h1, h2]
    · intro d2 w2 h1 h2; simp [Worker, deserializeDatumData, h1, h2]
  | mergeWire m =>
    refine ⟨by simp [deserializeDatumData], ?_, by simp [deserializeMergeData]⟩
    intro _ m0 hm0
    simp [deserializeMergeData] at hm0
    subst hm0
    refine ⟨?_, ?_, ?_⟩
    · intro e he
      simp [Worker, deserializeDatumData, deserializeMergeData, he]
    · intro m2 e h1 h2
      simp [Worker, deserializeDatumData, deserializeMergeData, h1, h2]
    · intro m2 w2 h1 h2
      simp [Worker, deserializeDatumData, deserializeMergeData, h1, h2]
  | other =>
    refine ⟨by simp [deserializeDatumData], by simp [deserializeMergeData], ?_⟩
    intro _ _
    simp [Worker, deserializeDatumData, deserializeMergeData]

/-- C7 witness: with concrete handlers, a datum payload is handled and
re-encoded, a merge payload propagates its handler error, and an
undecodable payload yields the unrecognized-format error. -/
theorem C7_witness :
    Worker (fun d : Nat => .ok (d + 1)) (fun d => .ok (.datumWire d))
        (fun _ : Nat => (.error 7 : Except Nat Nat))
        (fun m => .ok (.mergeWire m)) (.datumWire 3) = .ok (.datumWire 4) ∧
    Worker (fun d : Nat => .ok (d + 1)) (fun d => .ok (.datumWire d))
        (fun _ : Nat => (.error 7 : Except Nat Nat))
        (fun m => .ok (.mergeWire m)) (.mergeWire 5) = .error (.inner 7) ∧
    Worker (fun d : Nat => .ok (d + 1)) (fun d => .ok (.datumWire d))
        (fun _ : Nat => (.error 7 : Except Nat Nat))
        (fun m => .ok (.mergeWire m)) .other = .error .unrecognized := by
  refine ⟨?_, ?_, ?_⟩
  · exact ((C7_theorem (fun d : Nat => .ok (d + 1)) (fun d => .ok (.datumWire d))
      (fun _ : Nat => (.error 7 : Except Nat Nat))
      (fun m => .ok (.mergeWire m)) (.datumWire 3)).1 3 rfl).2.2 4 (.datumWire 4) rfl rfl
  · exact ((C7_theorem (fun d : Nat => .ok (d + 1)) (fun d => .ok (.datumWire d))
      (fun _ : Nat => (.error 7 : Except Nat Nat))
      (fun m => .ok (.mergeWire m)) (.mergeWire 5)).2.1 rfl 5 rfl).1 7 rfl
  · exact (C7_theorem (fun d : Nat => .ok (d + 1)) (fun d => .ok (.datumWire d))
      (fun _ : Nat => (.error 7 : Except Nat Nat))
      (fun m => .ok (.mergeWire m)) .other).2.2 rfl rfl

/-- C1 counterexample: at a concrete input where the cache probe
succeeds, stats are enabled, and the stats-tag fetch fails, `processDatum`
returns success but `DatumsSkipped` is 0, not 1: the early return of the
source precedes the `DatumsSkipped++` statement. -/
theorem C1_counterexample :
    c1Env.inspectTagOk = true ∧ c1Env.enableStats = true ∧
    c1Env.getStatsTagOk = false ∧ (processDatum c1Env).err = none ∧
    (processDatum c1Env).stats.datumsSkipped = 0 := by
  refine ⟨rfl, rfl, rfl, ?_, ?_⟩ <;> decide

/-- C1 (amended): when the cache probe succeeds, the output-tree fetch
and cache put succeed, stats are enabled, and the stats-tag fetch fails,
`processDatum` returns success with the datum hashtree cached but with
all counters (including `DatumsSkipped`) left at zero. -/
theorem C1_theorem (env : DatumEnv) (h1 : env.inspectTagOk = true)
    (h2 : env.getTagOk = true) (h3 : env.probePutOk = true)
    (h4 : env.enableStats = true) (h5 : env.getStatsTagOk = false) :
    (processDatum env).err = none ∧ (processDatum env).stats = zeroDatumStats ∧
    (processDatum env).datumCachePuts = 1 ∧ (processDatum env).statsCachePuts = 0 := by
  simp [processDatum, h1, h2, h3, h4, h5]

/-- C1 witness. -/
theorem C1_witness :
    (processDatum c1Env).err = none ∧ (processDatum c1Env).stats = zeroDatumStats ∧
    (processDatum c1Env).datumCachePuts = 1 ∧ (processDatum c1Env).statsCachePuts = 0 :=
  C1_theorem c1Env rfl rfl rfl rfl rfl

/-- When the error handler ran in an attempt, the error command was
configured, the attempt was the final retry (`failures == DatumTries-1`),
the download succeeded and user code failed; the attempt error is the
recovered sentinel or the wrapped handler failure. -/
theorem attempt_ranHandler_true (env : DatumEnv) (f : Nat)
    (h : (attempt env f).ranHandler = true) :
    env.errCmd = true ∧ (f : Int) = env.datumTries - 1 ∧ env.downloadOk f = true ∧
      env.userCodeOk f = false ∧
      (attempt env f).err
        = some (if env.errHandlerOk f then PErr.recovered else PErr.handlerFailed) := by
  unfold attempt at h ⊢
  cases hd : env.downloadOk f with
  | false => simp [hd] at h
  | true =>
    cases hu : env.userCodeOk f with
    | true =>
      cases hs : env.s3Out with
      | true => simp [hd, hu, hs] at h
      | false =>
        cases hup : env.uploadOutputOk f with
        | false => simp [hd, hu, hs, hup] at h
        | true =>
          cases hcp : env.loopCachePutOk f with
          | false => simp [hd, hu, hs, hup, hcp] at h
          | true => simp [hd, hu, hs, hup, hcp] at h
    | false =>
      by_cases hc : env.errCmd = true ∧ (f : Int) = env.datumTries - 1
      case neg => simp [hd, hu, hc] at h
      case pos =>
        obtain ⟨hc1, hc2⟩ := hc
        refine ⟨hc1, hc2, rfl, rfl, ?_⟩
        cases he : env.errHandlerOk f <;> simp [hd, hu, hc1, hc2, he]

/-- A successful attempt never ran the error handler. -/
theorem attempt_err_none (env : DatumEnv) (f : Nat)
    (h : (attempt env f).err = none) : (attempt env f).ranHandler = false := by
  unfold attempt at h ⊢
  cases hd : env.downloadOk f with
  | false => simp [hd] at h
  | true =>
    cases hu : env.userCodeOk f with
    | true =>
      cases hs : env.s3Out with
      | true => simp [hd, hu, hs]
      | false =>
        cases hup : env.uploadOutputOk f with
        | false => simp [hd, hu, hs, hup] at h
        | true =>
          cases hcp : env.loopCachePutOk f with
          | false => simp [hd, hu, hs, hup, hcp] at h
          | true => simp [hd, hu, hs, hup, hcp]
    | false =>
      by_cases hc : env.errCmd = true ∧ (f : Int) = env.datumTries - 1
      case neg => simp [hd, hu, hc] at h
      case pos =>
        obtain ⟨hc1, hc2⟩ := hc
        cases he : env.errHandlerOk f <;> simp [hd, hu, hc1, hc2, he] at h

/-- Invariant of the retry loop, by strong induction on the remaining
try budget: user code runs at most once per remaining try; the error
handler runs at most once, only on the final retry with an error command
configured, and its success or failure decides between the recovered
sentinel and the wrapped handler error; whenever the loop aborts with an
error and stats plus the error-object upload are available, the written
`failure` entry holds that error message. -/
theorem retryLoop_invariant (env : DatumEnv) :
    ∀ (k f : Nat), (env.datumTries - (f : Int)).toNat ≤ k →
      (retryLoop env f).userRuns ≤ 1 + (env.datumTries - ((f : Int) + 1)).toNat ∧
      ((retryLoop env f).handlerRuns ≥ 1 →
        env.errCmd = true ∧ 1 ≤ env.datumTries ∧
          env.downloadOk (env.datumTries - 1).toNat = true ∧
          env.userCodeOk (env.datumTries - 1).toNat = false ∧
          (retryLoop env f).handlerRuns = 1 ∧
          (retryLoop env f).err
            = some (if env.errHandlerOk (env.datumTries - 1).toNat then PErr.recovered
                else PErr.handlerFailed)) ∧
      (∀ e, (retryLoop env f).err = some e → env.enableStats = true →
        env.putErrObjOk = true →
        (retryLoop env f).failureEntry = some (errMessage e)) := by
  intro k
  induction k using Nat.strong_induction_on with
  | _ k ih =>
    intro f hk
    have hu1 : (attempt env f).ranUser.toNat ≤ 1 := by
      cases (attempt env f).ranUser <;> simp
    cases ha : (attempt env f).err with
    | none =>
      have hnh := attempt_err_none env f ha
      rw [retryLoop, if_pos ha]
      refine ⟨?_, ?_, by simp⟩
      · show (attempt env f).ranUser.toNat ≤ 1 + (env.datumTries - ((f : Int) + 1)).toNat
        omega
      intro hhr
      have hhr2 : (attempt env f).ranHandler.toNat ≥ 1 := hhr
      rw [hnh] at hhr2
      simp at hhr2
    | some e =>
      have hne : ¬((attempt env f).err = none) := by simp [ha]
      by_cases hab : env.datumTries ≤ (f : Int) + 1
      · rw [retryLoop, if_neg hne, if_pos hab]
        refine ⟨?_, ?_, ?_⟩
        · show (attempt env f).ranUser.toNat ≤ 1 + (env.datumTries - ((f : Int) + 1)).toNat
          omega
        · intro hhr
          have hhr2 : (attempt env f).ranHandler.toNat ≥ 1 := hhr
          have hrh : (attempt env f).ranHandler = true := by
            cases hx : (attempt env f).ranHandler
            · rw [hx] at hhr2; simp at hhr2
            · rfl
          obtain ⟨hcmd, hfeq, hdl, huc, herr⟩ := attempt_ranHandler_true env f hrh
          have hf1 : 1 ≤ env.datumTries := by omega
          have hf2 : (env.datumTries - 1).toNat = f := by omega
          rw [hf2]
          refine ⟨hcmd, hf1, hdl, huc, ?_, ?_⟩
          · show (attempt env f).ranHandler.toNat = 1
            rw [hrh]
            rfl
          · exact herr
        · intro e2 he2 hes hpo
          have he2b : (attempt env f).err = some e2 := he2
          rw [ha] at he2b
          injection he2b with he2b
          show (if env.enableStats && env.putErrObjOk then
              some (errMessage ((attempt env f).err.getD PErr.userCode))
            else none) = some (errMessage e2)
          rw [hes, hpo, ha, ← he2b]
          simp
      · rw [retryLoop, if_neg hne, if_neg hab]
        have hlt : (env.datumTries - ((f + 1 : Nat) : Int)).toNat < k := by
          push_cast
          omega
        obtain ⟨ih1, ih2, ih3⟩ := ih _ hlt (f + 1) le_rfl
        have hnh : (attempt env f).ranHandler = false := by
          cases hx : (attempt env f).ranHandler
          · rfl
          · obtain ⟨_, hfeq, _⟩ := attempt_ranHandler_true env f hx
            omega
        push_cast at ih1
        refine ⟨?_, ?_, ?_⟩
        · show (attempt env f).ranUser.toNat + (retryLoop env (f + 1)).userRuns
            ≤ 1 + (env.datumTries - ((f : Int) + 1)).toNat
          omega
        · intro hhr
          have hhr2 : (attempt env f).ranHandler.toNat
              + (retryLoop env (f + 1)).handlerRuns ≥ 1 := hhr
          rw [hnh] at hhr2
          simp at hhr2
          obtain ⟨j1, j2, j3, j4, j5, j6⟩ := ih2 hhr2
          refine ⟨j1, j2, j3, j4, ?_, j6⟩
          show (attempt env f).ranHandler.toNat
              + (retryLoop env (f + 1)).handlerRuns = 1
          rw [hnh]
          simpa using j5
        · intro e2 he2 hes hpo
          exact ih3 e2 he2 hes hpo

/-- C4: user code is attempted at most `DatumTries` times; the error
handler runs only when user code failed on the final retry with an error
command configured, and then exactly once; handler success yields the
recovered sentinel as the loop outcome, which `processDatum` turns into
the recovered tag list and `DatumsRecovered = 1`; handler failure makes
the wrapped handler error the loop outcome; and an aborting loop writes
a `failure` entry holding the aborting error message into the stats
tree (stats enabled, error object stored). -/
theorem C4_theorem (env : DatumEnv) :
    (1 ≤ env.datumTries → (retryLoop env 0).userRuns ≤ env.datumTries.toNat) ∧
    ((retryLoop env 0).handlerRuns ≥ 1 →
      env.errCmd = true ∧
        env.downloadOk (env.datumTries - 1).toNat = true ∧
        env.userCodeOk (env.datumTries - 1).toNat = false ∧
        (retryLoop env 0).handlerRuns = 1) ∧
    ((retryLoop env 0).handlerRuns ≥ 1 →
      env.errHandlerOk (env.datumTries - 1).toNat = true →
      (retryLoop env 0).err = some PErr.recovered) ∧
    ((retryLoop env 0).handlerRuns ≥ 1 →
      env.errHandlerOk (env.datumTries - 1).toNat = false →
      (retryLoop env 0).err = some PErr.handlerFailed) ∧
    (env.inspectTagOk = false → (env.enableStats = true → env.statsInitOk = true) →
      (retryLoop env 0).err = some PErr.recovered →
      (processDatum env).recovered = [env.tag] ∧
        (processDatum env).stats.datumsRecovered = 1 ∧
        (processDatum env).stats.datumsFailed = 0 ∧
        (processDatum env).stats.datumsProcessed = 0) ∧
    (∀ e, (retryLoop env 0).err = some e → env.enableStats = true →
      env.putErrObjOk = true →
      (retryLoop env 0).failureEntry = some (errMessage e)) := by
  obtain ⟨i1, i2, i3⟩ :=
    retryLoop_invariant env ((env.datumTries - ((0 : Nat) : Int)).toNat) 0 le_rfl
  refine ⟨?_, ?_, ?_, ?_, ?_, i3⟩
  · intro h1
    have hi := i1
    push_cast at hi
    omega
  · intro hh
    obtain ⟨j1, j2, j3, j4, j5, j6⟩ := i2 hh
    exact ⟨j1, j3, j4, j5⟩
  · intro hh he
    obtain ⟨_, _, _, _, _, j6⟩ := i2 hh
    rw [j6, he]
    simp
  · intro hh he
    obtain ⟨_, _, _, _, _, j6⟩ := i2 hh
    rw [j6, he]
    simp
  · intro hit hsi hrec
    cases hes : env.enableStats with
    | false => simp [processDatum, hit, hes, hrec, zeroDatumStats]
    | true => simp [processDatum, hit, hes, hsi hes, hrec, zeroDatumStats]

/-- C4 witness: with two tries, an error command, always-failing user
code and a succeeding handler (`c4EnvA`), the handler runs exactly once,
the loop ends with the recovered sentinel, `processDatum` records the
recovered tag, and the failure entry holds the sentinel message; with a
failing handler (`c4EnvB`) the loop ends with the handler error;
user code ran at most twice. -/
theorem C4_witness :
    (retryLoop c4EnvA 0).userRuns ≤ (2 : Int).toNat ∧
    (retryLoop c4EnvA 0).handlerRuns = 1 ∧
    (retryLoop c4EnvA 0).err = some PErr.recovered ∧
    (processDatum c4EnvA).recovered = ["tagC"] ∧
    (processDatum c4EnvA).stats.datumsRecovered = 1 ∧
    (retryLoop c4EnvA 0).failureEntry = some (errMessage PErr.recovered) ∧
    (retryLoop c4EnvB 0).err = some PErr.handlerFailed := by
  have hA : (retryLoop c4EnvA 0).handlerRuns ≥ 1 ∧
      (retryLoop c4EnvA 0).err = some PErr.recovered := by
    rw [retryLoop, retryLoop]
    simp [attempt, c4EnvA]
  have hB : (retryLoop c4EnvB 0).handlerRuns ≥ 1 := by
    rw [retryLoop, retryLoop]
    simp [attempt, c4EnvB]
  have tA := C4_theorem c4EnvA
  have tB := C4_theorem c4EnvB
  refine ⟨?_, ?_, ?_, ?_, ?_, ?_, ?_⟩
  · exact tA.1 (by decide)
  · exact (tA.2.1 hA.1).2.2.2
  · exact tA.2.2.1 hA.1 (by decide)
  · exact ((tA.2.2.2.2.1 rfl (fun h => rfl) hA.2).1).trans (by decide)
  · exact (tA.2.2.2.2.1 rfl (fun h => rfl) hA.2).2.1
  · exact tA.2.2.2.2.2 PErr.recovered hA.2 rfl rfl
  · exact tB.2.2.2.1 hB (by decide)

/-- C10: when the cache probe misses and the retry loop aborts with a
non-recovered error, `processDatum` converts the failure into stats
(`FailedDatumID` set to the datum id, `DatumsFailed` incremented) and
returns a nil error (provided the stats machinery itself, when enabled,
succeeds), so a failed datum does not cancel its sibling datum tasks. -/
theorem C10_theorem (env : DatumEnv) (hit : env.inspectTagOk = false)
    (hsi : env.enableStats = true → env.statsInitOk = true)
    (hws : env.enableStats = true → env.writeStatsOk = true)
    (hne : (retryLoop env 0).err ≠ none)
    (hnr : (retryLoop env 0).err ≠ some PErr.recovered) :
    (processDatum env).err = none ∧
    (processDatum env).stats.datumsFailed = 1 ∧
    (processDatum env).stats.failedDatumID = env.datumID ∧
    (processDatum env).stats.datumsProcessed = 0 ∧
    (processDatum env).stats.datumsRecovered = 0 := by
  cases hes : env.enableStats with
  | false => simp [processDatum, hit, hes, hne, hnr, zeroDatumStats]
  | true => simp [processDatum, hit, hes, hsi hes, hws hes, hne, hnr, zeroDatumStats]

/-- C10 witness: one try, failing user code, no error command
(`c10Env`): the loop aborts with the user-code error, yet `processDatum`
returns no error and marks the datum failed. -/
theorem C10_witness :
    (processDatum c10Env).err = none ∧
    (processDatum c10Env).stats.datumsFailed = 1 ∧
    (processDatum c10Env).stats.failedDatumID = "datumD" ∧
    (processDatum c10Env).stats.datumsProcessed = 0 ∧
    (processDatum c10Env).stats.datumsRecovered = 0 := by
  have hloop : (retryLoop c10Env 0).err = some PErr.userCode := by
    rw [retryLoop]
    simp [attempt, c10Env]
  have h := C10_theorem c10Env rfl (fun h => by cases h) (fun h => by cases h)
    (by rw [hloop]; simp) (by rw [hloop]; simp)
  exact ⟨h.1, h.2.1, h.2.2.1, h.2.2.2.1, h.2.2.2.2⟩

/-- C2 counterexample: a call of `processDatum` that returns a nil error
yet increments none of the four outcome counters (cache probe hit, stats
enabled, stats-tag fetch failed), so the counter sum falls short of the
number of datums. -/
theorem C2_counterexample :
    (processDatum c2Env).err = none ∧ counterSum (processDatum c2Env).stats = 0 := by
  constructor <;> decide

/-- C2 (amended): every `processDatum` call that returns a nil error
increments exactly one of the four counters, except the path where the
cache probe succeeds, stats are enabled and the stats-tag fetch fails,
which increments none. -/
theorem C2_theorem (env : DatumEnv) (h : (processDatum env).err = none) :
    counterSum (processDatum env).stats =
      (if env.inspectTagOk = true ∧ env.enableStats = true ∧ env.getStatsTagOk = false
        then 0 else 1) := by
  cases hIT : env.inspectTagOk with
  | true =>
    cases hGT : env.getTagOk with
    | false => simp [processDatum, hIT, hGT] at h
    | true =>
      cases hPP : env.probePutOk with
      | false => simp [processDatum, hIT, hGT, hPP] at h
      | true =>
        cases hES : env.enableStats with
        | true =>
          cases hGS : env.getStatsTagOk with
          | false =>
            simp [processDatum, hIT, hGT, hPP, hES, hGS, counterSum, zeroDatumStats]
          | true =>
            cases hSP : env.statsProbePutOk with
            | false => simp [processDatum, hIT, hGT, hPP, hES, hGS, hSP] at h
            | true =>
              simp [processDatum, hIT, hGT, hPP, hES, hGS, hSP, counterSum,
                zeroDatumStats]
        | false =>
          simp [processDatum, hIT, hGT, hPP, hES, counterSum, zeroDatumStats]
  | false =>
    cases hES : env.enableStats with
    | false =>
      by_cases hr : (retryLoop env 0).err = some PErr.recovered
      · simp [processDatum, hIT, hES, hr, counterSum, zeroDatumStats]
      · by_cases hn : (retryLoop env 0).err = none
        · simp [processDatum, hIT, hES, hr, hn, counterSum, zeroDatumStats]
        · simp [processDatum, hIT, hES, hr, hn, counterSum, zeroDatumStats]
    | true =>
      cases hSI : env.statsInitOk with
      | false => simp [processDatum, hIT, hES, hSI] at h
      | true =>
        cases hWS : env.writeStatsOk with
        | false => simp [processDatum, hIT, hES, hSI, hWS] at h
        | true =>
          by_cases hr : (retryLoop env 0).err = some PErr.recovered
          · simp [processDatum, hIT, hES, hSI, hWS, hr, counterSum, zeroDatumStats]
          · by_cases hn : (retryLoop env 0).err = none
            · simp [processDatum, hIT, hES, hSI, hWS, hr, hn, counterSum,
                zeroDatumStats]
            · simp [processDatum, hIT, hES, hSI, hWS, hr, hn, counterSum,
                zeroDatumStats]

/-- C2 witness: on the exceptional path the amended statement evaluates
to a zero counter sum. -/
theorem C2_witness : counterSum (processDatum c2Env).stats = 0 := by
  have h2 := C2_theorem c2Env (by decide)
  rw [h2]
  decide

/-- C3: when the publishing phase of `handleDatumTask` completes without
error starting from a payload with unset output hashtrees, the output
chunk is published and `ChunkHashtree` set exactly when `DatumsFailed ==
0` and the pipeline is not `S3Out`, the stats chunk is published and
`StatsHashtree` set exactly when stats are enabled (also with failed
datums), and the stats are unchanged. -/
theorem C3_theorem (env : PublishEnv) (tagPfx : String → String)
    (workerIP jobID subtaskID : String) (recovered : List String) (d0 d : TaskData)
    (hc0 : d0.chunkHashtree = none) (hs0 : d0.statsHashtree = none)
    (h : publishPhase env tagPfx workerIP jobID subtaskID recovered d0 = .ok d) :
    (d.chunkHashtree.isSome = true ↔ (d0.stats.datumsFailed = 0 ∧ env.s3Out = false)) ∧
    (d.statsHashtree.isSome = true ↔ env.enableStats = true) ∧
    d.stats = d0.stats := by
  unfold publishPhase at h
  rcases env with ⟨s3, es, ur, gc, uc, gs, us⟩
  by_cases hf : d0.stats.datumsFailed = 0 ∧ s3 = false <;>
    by_cases hrec : recovered.length > 0 <;>
    cases s3 <;> cases es <;> cases ur <;> cases gc <;> cases uc <;> cases gs <;>
    cases us <;> simp_all <;> subst h <;> simp_all

/-- C3 witness: a successful concrete publication with stats enabled,
no failed datums and no S3 output sets both hashtrees and leaves the
stats untouched. -/
theorem C3_witness :
    c3dC.chunkHashtree.isSome = true ∧ c3dC.statsHashtree.isSome = true ∧
    c3dC.stats = c3Data.stats := by
  have h := C3_theorem c3Env (fun j => j) ("ip") ("job") ("sub") [] c3Data c3dC
    rfl rfl rfl
  exact ⟨h.1.mpr (by decide), h.2.1.mpr rfl, h.2.2⟩

/-- C8 counterexample: the claim that stale-cache eviction happens
strictly after all chunk downloads complete fails on the code: the
deletes are issued by the main goroutine before `eg.Wait()`, so the
legal schedule in which the spawned fetch completes only at the wait
point places a delete before a download completion. -/
theorem C8_counterexample :
    ¬ DeletesAfterDownloadsComplete ["s"] ["t"] false := by
  intro hcl
  have htr : downloadPhaseTrace ["s"] ["t"] false
      = [MergeEvent.spawnFetch ("t"), MergeEvent.deleteKey ("s"), MergeEvent.wait] := by
    decide
  have hlegal : ∀ i t, (downloadPhaseTrace ["s"] ["t"] false)[i]?
      = some (MergeEvent.spawnFetch t) →
      i < (fun _ : Nat => 2) i ∧
      (fun _ : Nat => 2) i ≤ (downloadPhaseTrace ["s"] ["t"] false).length - 1 := by
    intro i t hi
    rw [htr] at hi
    rcases Nat.lt_or_ge i 3 with h3 | h3
    · interval_cases i
      · exact ⟨by simp, by rw [htr]; simp⟩
      · simp at hi
      · simp at hi
    · have hlen : ([MergeEvent.spawnFetch ("t"), MergeEvent.deleteKey ("s"),
          MergeEvent.wait]).length ≤ i := by
        simpa using h3
      rw [List.getElem?_eq_none hlen] at hi
      cases hi
  have hfalse := hcl (fun _ => 2) hlegal 0 ("t") 1 ("s")
    (by rw [htr]; decide) (by rw [htr]; decide)
  simp at hfalse

/-- C8 (amended): in the download phase of `handleMergeTask`, every
stale-cache delete is issued after every fetch spawn and strictly before
the wait point (not after download completion), and the deleted key is
never one of the tags referenced by the merge request, so eviction
cannot touch an entry being fetched. -/
theorem C8_theorem (cachedIDs tags : List String) (hasParent : Bool) (d : Nat)
    (k : String)
    (hd : (downloadPhaseTrace cachedIDs tags hasParent)[d]?
        = some (MergeEvent.deleteKey k)) :
    (∀ j t, (downloadPhaseTrace cachedIDs tags hasParent)[j]?
        = some (MergeEvent.spawnFetch t) → j < d) ∧
    d + 1 < (downloadPhaseTrace cachedIDs tags hasParent).length ∧
    tags.contains k = false := by
  have htr : downloadPhaseTrace cachedIDs tags hasParent
      = fetchSpawns cachedIDs tags ++ (staleDeletes cachedIDs tags ++
        ((if hasParent then [MergeEvent.spawnParentFetch] else [])
          ++ [MergeEvent.wait])) := by
    simp [downloadPhaseTrace, List.append_assoc]
  rw [htr] at hd
  have hdA : (fetchSpawns cachedIDs tags).length ≤ d := by
    by_contra hlt
    push_neg at hlt
    rw [List.getElem?_append_left hlt] at hd
    have hm := List.getElem?_mem hd
    simp [fetchSpawns] at hm
  rw [List.getElem?_append_right hdA] at hd
  have hdB : d - (fetchSpawns cachedIDs tags).length
      < (staleDeletes cachedIDs tags).length := by
    by_contra hge
    push_neg at hge
    rw [List.getElem?_append_right hge] at hd
    have hm := List.getElem?_mem hd
    rw [List.mem_append] at hm
    rcases hm with hm | hm
    · cases hasParent <;> simp_all
    · simp_all
  rw [List.getElem?_append_left hdB] at hd
  have hm := List.getElem?_mem hd
  have hm2 : k ∈ cachedIDs ∧ k ∉ tags := by simpa [staleDeletes] using hm
  refine ⟨?_, ?_, by simpa using hm2.2⟩
  · intro j t hj
    rw [htr] at hj
    have hjA : j < (fetchSpawns cachedIDs tags).length := by
      by_contra hge
      push_neg at hge
      rw [List.getElem?_append_right hge] at hj
      have hmj := List.getElem?_mem hj
      rw [List.mem_append] at hmj
      rcases hmj with hmj | hmj
      · simp [staleDeletes] at hmj
      · rw [List.mem_append] at hmj
        rcases hmj with hmj | hmj
        · cases hasParent <;> simp_all
        · simp_all
    omega
  · rw [htr]
    cases hasParent <;> simp [List.length_append] <;> omega

/-- C8 witness: concrete instance with one cached stale key and one
referenced tag: the delete sits after the spawn, before the wait, and
its key is not a referenced tag. -/
theorem C8_witness :
    0 < 1 ∧ 1 + 1 < (downloadPhaseTrace ["s"] ["t"] false).length ∧
    (["t"] : List String).contains ("s") = false := by
  have h := C8_theorem ["s"] ["t"] false 1 ("s") (by decide)
  exact ⟨h.1 0 ("t") (by decide), h.2.1, h.2.2⟩
